import Mathlib

/-!
Shallow embedding of the WhatsApp CRM backend service (`WhatsappService`):
the text variation pipeline, delay-range parsing, the dispatch engine
(`sendMessage`), the bulk campaign entry point (`sendBulkMessage`), the
auto-reply matcher (`handleAutoReply`) and the acknowledgment status tracker.

Randomness: every `Math.random()` call of the source is modelled as one draw
from a sequential stream of natural numbers; a draw used to pick among `k`
alternatives is taken modulo `k`, the coin `Math.random() > 0.5` is modelled
as `draw % 2 == 1`, and `Math.floor(Math.random() * 10) + 1` as
`draw % 10 + 1`.  Scanning functions that consume at least one character per
step are written with a fuel argument (initialised to the text length, an
upper bound on the number of steps) so that they are structurally recursive
and evaluate inside the kernel.
-/

set_option maxHeartbeats 1000000

/-- One draw from the sequential pseudo-random stream (one `Math.random()`
call); an exhausted stream yields 0. -/
def draw (s : List Nat) : Nat × List Nat := (s.headD 0, s.tail)

/-- Opening brace character. -/
def lbrace : Char := Char.ofNat 123

/-- Closing brace character. -/
def rbrace : Char := Char.ofNat 125

/-- The zero-width space U+200B used by `addInvisibleUnique`. -/
def zeroWidthSpace : Char := Char.ofNat 8203

/-- JavaScript regex word character class `\w` = `[A-Za-z0-9_]`. -/
def isWordChar (c : Char) : Bool := c.isAlphanum || c == '_'

/-- Case-insensitive prefix match: the (lower-case) pattern matches the head
of the text, comparing each text character lower-cased. -/
def ciMatches : List Char → List Char → Bool
  | [], _ => true
  | _ :: _, [] => false
  | p :: ps, c :: cs => p == c.toLower && ciMatches ps cs

/-- Replace every non-overlapping case-insensitive occurrence of `pat` by
`repl`, scanning left to right (semantics of
`text.replace(new RegExp(pat, 'gi'), repl)` for a literal pattern).
`fuel` bounds the number of scan steps. -/
def replaceAllCIGo (pat repl : List Char) : Nat → List Char → List Char
  | _, [] => []
  | 0, text => text
  | fuel + 1, c :: cs =>
    if !pat.isEmpty && ciMatches pat (c :: cs) then
      repl ++ replaceAllCIGo pat repl fuel ((c :: cs).drop pat.length)
    else
      c :: replaceAllCIGo pat repl fuel cs

/-- Entry point for the fuelled case-insensitive replace. -/
def replaceAllCI (pat repl text : List Char) : List Char :=
  replaceAllCIGo pat repl text.length text

/-- The literal placeholder of `getTimeBasedGreeting`
(the brace-delimited word salam, pattern of `/\{\{salam\}\}/gi`). -/
def salamPattern : List Char :=
  [lbrace, lbrace, 's', 'a', 'l', 'a', 'm', rbrace, rbrace]

/-- Time bucket of `getTimeBasedGreeting`: hours 3-10 Pagi, 11-14 Siang,
15-17 Sore, otherwise Malam. -/
def timeSpecificGreeting (hour : Nat) : String :=
  if 3 ≤ hour && hour < 11 then "Pagi"
  else if 11 ≤ hour && hour < 15 then "Siang"
  else if 15 ≤ hour && hour < 18 then "Sore"
  else "Malam"

/-- The four greeting variations of `getTimeBasedGreeting`. -/
def greetingVariations (hour : Nat) : List String :=
  ["Assalamualaikum, Selamat " ++ timeSpecificGreeting hour,
   "Selamat " ++ timeSpecificGreeting hour,
   "Halo, Selamat " ++ timeSpecificGreeting hour,
   "Assalamualaikum"]

/-- `getTimeBasedGreeting`: one draw selects a greeting variation (the draw
happens unconditionally in the source), then every case-insensitive
occurrence of the salam placeholder is replaced by it. -/
def getTimeBasedGreeting (hour : Nat) (s : List Nat) (text : List Char) :
    List Char × List Nat :=
  let vars := greetingVariations hour
  let (d, s1) := draw s
  let selected := (vars.getD (d % vars.length) "").toList
  (replaceAllCI salamPattern selected text, s1)

/-- Longest brace-free run at the head of the text (the `[^{}]+` part of the
spintax regex). -/
def spintaxContent (cs : List Char) : List Char :=
  cs.takeWhile (fun c => !(c == lbrace || c == rbrace))

/-- After an opening brace, try to match the rest of the spintax block
`([^{}]+)\}`: at least one brace-free character followed by a closing brace.
Returns the block content and the text after the closing brace. -/
def scanSpintaxBlock (cs : List Char) : Option (List Char × List Char) :=
  let content := spintaxContent cs
  if content.isEmpty then none
  else
    match cs.drop content.length with
    | c :: _ => if c == rbrace then some (content, cs.drop (content.length + 1)) else none
    | [] => none

/-- Split a character list on the bar character (`content.split('|')`);
always returns at least one (possibly empty) group. -/
def splitBar (cs : List Char) : List (List Char) :=
  cs.foldr
    (fun c acc =>
      if c == '|' then [] :: acc
      else
        match acc with
        | [] => [[c]]
        | g :: gs => (c :: g) :: gs)
    [[]]

/-- Scanner of `processSpintax`: at each opening brace that starts a
well-formed non-nested block, one draw picks one of the bar-separated
choices; everything else is copied. -/
def processSpintaxGo : Nat → List Nat → List Char → List Char × List Nat
  | _, s, [] => ([], s)
  | 0, s, text => (text, s)
  | fuel + 1, s, c :: cs =>
    if c == lbrace then
      match scanSpintaxBlock cs with
      | some (content, rest) =>
        let choices := splitBar content
        let (d, s1) := draw s
        let chosen := choices.getD (d % choices.length) []
        let (out, s2) := processSpintaxGo fuel s1 rest
        (chosen ++ out, s2)
      | none =>
        let (out, s1) := processSpintaxGo fuel s cs
        (c :: out, s1)
    else
      let (out, s1) := processSpintaxGo fuel s cs
      (c :: out, s1)

/-- `processSpintax`: resolve every `/\{([^{}]+)\}/g` match to one random
choice. -/
def processSpintax (s : List Nat) (text : List Char) : List Char × List Nat :=
  processSpintaxGo text.length s text

/-- `addInvisibleUnique`: append `Math.floor(Math.random() * 10) + 1`
zero-width spaces. -/
def addInvisibleUnique (s : List Nat) (text : List Char) : List Char × List Nat :=
  let (d, s1) := draw s
  let randomCount := d % 10 + 1
  (text ++ List.replicate randomCount zeroWidthSpace, s1)

/-- Leading-character upper-casing of the chosen slang variation
(`chosen.charAt(0).toUpperCase() + chosen.slice(1)`). -/
def slangCapitalize : List Char → List Char
  | [] => []
  | c :: cs => c.toUpper :: cs

/-- Word boundary after a match: end of text or a non-word character. -/
def wordBoundaryAfter (rest : List Char) : Bool :=
  match rest with
  | [] => true
  | c :: _ => !isWordChar c

/-- One pass of `applyIndonesianSlang` for a single dictionary word
(`newText.replace(new RegExp('\\b' + word + '\\b', 'gi'), cb)`).
The word is given as head character `w0` plus tail `wr` so it is nonempty by
construction.  `prevW` records whether the previous original character was a
word character (for the leading `\b`).  On each match one draw decides
keep-versus-replace (`Math.random() > 0.5` keeps), and, when replacing, a
second draw picks a variation, capitalised when the matched text starts with
an upper-case character. -/
def replaceWordGo (w0 : Char) (wr : List Char) (vars : List (List Char)) :
    Nat → List Nat → Bool → List Char → List Char × List Nat
  | _, s, _, [] => ([], s)
  | 0, s, _, text => (text, s)
  | fuel + 1, s, prevW, c :: cs =>
    let wlen := wr.length + 1
    if !prevW && ciMatches (w0 :: wr) (c :: cs) &&
        wordBoundaryAfter ((c :: cs).drop wlen) then
      let matched := (c :: cs).take wlen
      let rest := (c :: cs).drop wlen
      let afterW := isWordChar (wr.getLastD w0)
      let (coin, s1) := draw s
      if coin % 2 == 1 then
        let (out, s2) := replaceWordGo w0 wr vars fuel s1 afterW rest
        (matched ++ out, s2)
      else
        let (idx, s2) := draw s1
        let chosen := vars.getD (idx % vars.length) []
        let repl := if c == c.toUpper then slangCapitalize chosen else chosen
        let (out, s3) := replaceWordGo w0 wr vars fuel s2 afterW rest
        (repl ++ out, s3)
    else
      let (out, s1) := replaceWordGo w0 wr vars fuel s prevW cs
      (c :: out, s1)

/-- The fixed slang dictionary of `applyIndonesianSlang`, in source order:
word (head character, tail) and its variation list. -/
def slangDict : List ((Char × List Char) × List String) :=
  [(('y', "ang".toList), ["yg", "yang"]),
   (('s', "aya".toList), ["sy", "aku", "saya"]),
   (('t', "idak".toList), ["gak", "enggak", "tak", "tidak"]),
   (('b', "isa".toList), ["bs", "bisa"]),
   (('t', "erima kasih".toList), ["makasih", "trims", "terima kasih"]),
   (('k', "arena".toList), ["krn", "karna", "karena"]),
   (('s', "udah".toList), ["udh", "sdh", "sudah"]),
   (('b', "agaimana".toList), ["gimana", "bagaimana"]),
   (('k', "ak".toList), ["ka", "kak", "kakak"])]

/-- Apply the slang passes entry by entry, each pass scanning the output of
the previous one (the source reassigns `newText` per dictionary entry). -/
def applySlangEntries :
    List ((Char × List Char) × List String) → List Nat → List Char →
    List Char × List Nat
  | [], s, t => (t, s)
  | ((w0, wr), vars) :: es, s, t =>
    let r := replaceWordGo w0 wr (vars.map String.toList) t.length s false t
    applySlangEntries es r.2 r.1

/-- `applyIndonesianSlang`: whole-word case-insensitive slang substitution
over the fixed dictionary. -/
def applyIndonesianSlang (s : List Nat) (text : List Char) : List Char × List Nat :=
  applySlangEntries slangDict s text

/-- The text variation pipeline exactly as composed in
`processBulkMessageBackground` (the `processor` closure): greeting
substitution, then spintax expansion, then the invisible uniqueness suffix,
then slang substitution. -/
def bulkTextProcessor (hour : Nat) (s : List Nat) (rawText : List Char) :
    List Char × List Nat :=
  let r1 := getTimeBasedGreeting hour s rawText
  let r2 := processSpintax r1.2 r1.1
  let r3 := addInvisibleUnique r2.2 r2.1
  applyIndonesianSlang r3.2 r3.1

/-- Modelled from the spec: the stage order stated in the specification
(section 4.4), with slang substitution third and the uniqueness suffix last.
Compared against `bulkTextProcessor`, which is translated from the source. -/
def specOrderProcessor (hour : Nat) (s : List Nat) (rawText : List Char) :
    List Char × List Nat :=
  let r1 := getTimeBasedGreeting hour s rawText
  let r2 := processSpintax r1.2 r1.1
  let r3 := applyIndonesianSlang r2.2 r2.1
  addInvisibleUnique r3.2 r3.1

/-- Split a character list on the dash character (`range.split('-')`);
always returns at least one (possibly empty) token. -/
def splitDash (cs : List Char) : List (List Char) :=
  cs.foldr
    (fun c acc =>
      if c == '-' then [] :: acc
      else
        match acc with
        | [] => [[c]]
        | g :: gs => (c :: g) :: gs)
    [[]]

/-- Whitespace for the purposes of `trim` and `parseInt`. -/
def isJsSpace (c : Char) : Bool :=
  c == ' ' || c == '\t' || c == '\n' || c == '\r'

/-- JavaScript `String.prototype.trim`. -/
def jsTrim (cs : List Char) : List Char :=
  ((cs.dropWhile isJsSpace).reverse.dropWhile isJsSpace).reverse

/-- Decimal digit value. -/
def decDigitVal (c : Char) : Nat := c.toNat - 48

/-- Hexadecimal digit test (for the `0x` prefix handling of `parseInt`). -/
def isHexDigitChar (c : Char) : Bool :=
  c.isDigit || ('a' ≤ c && c ≤ 'f') || ('A' ≤ c && c ≤ 'F')

/-- Hexadecimal digit value. -/
def hexDigitVal (c : Char) : Nat :=
  if c.isDigit then c.toNat - 48
  else if 'a' ≤ c && c ≤ 'f' then c.toNat - 87
  else c.toNat - 55

/-- JavaScript `parseInt(s)`: trim, optional sign, auto-detected `0x` prefix
switching to base 16, then as many leading digits as possible; `none` (NaN)
when no digit is consumed. -/
def jsParseInt (s : List Char) : Option Int :=
  let cs := jsTrim s
  let (sign, cs1) : Int × List Char :=
    match cs with
    | '+' :: t => (1, t)
    | '-' :: t => (-1, t)
    | t => (1, t)
  match cs1 with
  | '0' :: 'x' :: t =>
    let ds := t.takeWhile isHexDigitChar
    if ds.isEmpty then none
    else some (sign * (ds.foldl (fun acc c => acc * 16 + hexDigitVal c) 0 : Nat))
  | '0' :: 'X' :: t =>
    let ds := t.takeWhile isHexDigitChar
    if ds.isEmpty then none
    else some (sign * (ds.foldl (fun acc c => acc * 16 + hexDigitVal c) 0 : Nat))
  | t =>
    let ds := t.takeWhile Char.isDigit
    if ds.isEmpty then none
    else some (sign * (ds.foldl (fun acc c => acc * 10 + decDigitVal c) 0 : Nat))

/-- `getRandomDelay(range)`: split on `-`, `parseInt` each trimmed token
(`parseInt(undefined)` for a missing second token is NaN, matched here by
parsing the empty string); NaN min yields 10, NaN max copies min, min and max
swap when out of order, and the result is uniform on `[min, max]` (the draw
`d` modelling `Math.floor(Math.random() * (max - min + 1))`). -/
def getRandomDelay (d : Nat) (range : String) : Int :=
  let parts := splitDash range.toList
  match jsParseInt (jsTrim (parts.getD 0 [])) with
  | none => 10
  | some mn0 =>
    let mx0 := match jsParseInt (jsTrim (parts.getD 1 [])) with
      | none => mn0
      | some v => v
    let mn := if mn0 > mx0 then mx0 else mn0
    let mx := if mn0 > mx0 then mn0 else mx0
    mn + ((d % (mx - mn + 1).toNat : Nat) : Int)

deriving instance DecidableEq for Except

/-- A `MessageLog` row (prisma model), with the columns the service reads
and writes. -/
structure MessageLog where
  id : Nat
  toAddr : String
  body : String
  status : String
  waMessageId : Option String
  campaignId : Option String
  userId : Option Nat
deriving DecidableEq, Repr

/-- The `SendMessageDto` fields used by `sendMessage` (the media type is
kept as an optional raw string because bulk items are cast with `as any`). -/
structure SendMessageDto where
  sessionId : String
  toAddr : String
  message : String
  file : Option String
  mediaType : Option String
  fileName : Option String
deriving DecidableEq, Repr

/-- External environment of one `sendMessage` call: the live-socket registry
(`this.clients`), the jids `sock.onWhatsApp` reports as registered, the
`whatsappDevice` owner looked up for the session, and the outcome of the
`sock.sendMessage` transmit call (error message, or `sentMsg?.key?.id`). -/
structure SendEnv where
  clients : List String
  registered : List String
  deviceUser : Option Nat
  transmit : Except String (Option String)

/-- Observable steps of one `sendMessage` execution, in order. -/
inductive SendEvent
  | checkRegistration
  | presenceComposing
  | sleepTyping (ms : Nat)
  | createLog
  | transmitCall
  | updateLogSent
  | updateLogFailed
deriving DecidableEq, Repr

/-- Value returned by `sendMessage` when it does not throw. -/
inductive SendOutcome
  | success (data : MessageLog)
  | failed (error : String)
deriving DecidableEq, Repr

/-- JavaScript truthiness of an optional string (absent or empty is falsy). -/
def jsTruthy : Option String → Bool
  | none => false
  | some s => !s.isEmpty

/-- String interpolation of an optional value (`undefined` prints as the
word undefined). -/
def jsShowOpt : Option String → String
  | none => "undefined"
  | some s => s

/-- JavaScript `s.endsWith(suffix)` on strings, via character lists. -/
def strEndsWith (s suffix : String) : Bool :=
  suffix.toList.isSuffixOf s.toList

/-- Recipient normalization helper: membership of the `@` separator. -/
def strContainsAt (s : String) : Bool := s.toList.contains '@'

/-- Recipient normalization: pass through when the recipient contains `@`,
otherwise strip non-digits and append the canonical domain suffix. -/
def formatRecipient (recipient : String) : String :=
  if strContainsAt recipient then recipient
  else String.mk (recipient.toList.filter Char.isDigit) ++ "@s.whatsapp.net"

/-- Simulated typing duration in milliseconds:
`Math.min(Math.max(message.length * 50, 1000), 4000)`. -/
def typingDurationMs (message : String) : Nat :=
  min (max (message.length * 50) 1000) 4000

/-- Idempotent in-place row update of `prisma.messageLog.update` keyed by
the unique row id. -/
def updateLog (db : List MessageLog) (id : Nat) (f : MessageLog → MessageLog) :
    List MessageLog :=
  db.map (fun l => if l.id == id then f l else l)

/-- The media `switch (mediaType)` at the end of the try block: the three
supported kinds invoke the transmit call (modelled uniformly, the payloads
differing only in media framing), anything else throws the unsupported-type
error before any transmit. -/
def mediaSwitchSend (mediaType : Option String)
    (transmit : Except String (Option String)) :
    Except String (Option String) × List SendEvent :=
  match mediaType with
  | some "image" => (transmit, [SendEvent.transmitCall])
  | some "video" => (transmit, [SendEvent.transmitCall])
  | some "document" => (transmit, [SendEvent.transmitCall])
  | _ => (.error "Tipe media tidak didukung", [])

/-- Body of the try block of `sendMessage`, up to the value of
`sentMsg?.key?.id`: text messages transmit directly; attachments first
require a truthy media type, then resolve a byte source (upload buffer, then
string source, else the no-source error), then dispatch on the media type.
Errors are the thrown `BadRequestException`s, caught by the caller.  The
event list records whether the transmit call was reached. -/
def tryPhase (env : SendEnv) (dto : SendMessageDto) (mediaFile : Bool) :
    Except String (Option String) × List SendEvent :=
  if !(mediaFile || jsTruthy dto.file) then
    (env.transmit, [SendEvent.transmitCall])
  else if !(jsTruthy dto.mediaType) then
    (.error "mediaType wajib diisi jika mengirim file", [])
  else if mediaFile then
    mediaSwitchSend dto.mediaType env.transmit
  else if jsTruthy dto.file then
    mediaSwitchSend dto.mediaType env.transmit
  else
    (.error "Tidak ada media file atau URL yang disediakan untuk pengiriman", [])

/-- The `MessageLog` row created PENDING by `sendMessage`
(`prisma.messageLog.create`): the body carries an attachment marker when a
media source is present, and the owner connect is skipped for a falsy
(absent or zero) device user id. -/
def createdLog (env : SendEnv) (dto : SendMessageDto) (mediaFile : Bool)
    (campaignId : Option String) (nextId : Nat) : MessageLog :=
  { id := nextId,
    toAddr := formatRecipient dto.toAddr,
    body := dto.message ++
      (if mediaFile || jsTruthy dto.file then
        " [Attachment: " ++ jsShowOpt dto.mediaType ++ "]"
      else ""),
    status := "PENDING",
    waMessageId := none,
    campaignId := campaignId,
    userId := match env.deviceUser with | some 0 => none | v => v }

/-- Row update applied on a successful transmit: status SENT plus the
protocol-assigned message id (a prisma `undefined`, here `none`, leaves the
column untouched). -/
def applySentUpdate (w : Option String) (l : MessageLog) : MessageLog :=
  { l with status := "SENT",
           waMessageId := match w with | some v => some v | none => l.waMessageId }

/-- Row update applied when the try block threw: status FAILED. -/
def applyFailedUpdate (l : MessageLog) : MessageLog :=
  { l with status := "FAILED" }

/-- `sendMessage(dto, mediaFile?, campaignId?)` over an explicit database of
`MessageLog` rows (the next fresh row id given by `nextId`).  Propagated
exceptions (`BadRequestException`s thrown outside the try block) are
`.error`; everything else returns the structured success or failure payload.
The third component is the ordered event trace. -/
def sendMessage (env : SendEnv) (dto : SendMessageDto) (mediaFile : Bool)
    (campaignId : Option String) (db : List MessageLog) (nextId : Nat) :
    Except String SendOutcome × List MessageLog × List SendEvent :=
  if !(env.clients.contains dto.sessionId) then
    (.error "Sesi tidak ditemukan atau terputus.", db, [])
  else
    let formattedTo := formatRecipient dto.toAddr
    let canonical := strEndsWith formattedTo "@s.whatsapp.net"
    let preTrace := if canonical then [SendEvent.checkRegistration] else []
    if canonical && !(env.registered.contains formattedTo) then
      (.error ("Nomor " ++ dto.toAddr ++ " tidak terdaftar di WhatsApp."), db, preTrace)
    else
      let typingMs := typingDurationMs dto.message
      let log := createdLog env dto mediaFile campaignId nextId
      let db1 := db ++ [log]
      let tr1 := preTrace ++
        [SendEvent.presenceComposing, SendEvent.sleepTyping typingMs, SendEvent.createLog]
      match tryPhase env dto mediaFile with
      | (Except.ok w, evs) =>
        (.ok (.success log),
         updateLog db1 nextId (applySentUpdate w),
         tr1 ++ evs ++ [SendEvent.updateLogSent])
      | (Except.error e, evs) =>
        (.ok (.failed e),
         updateLog db1 nextId applyFailedUpdate,
         tr1 ++ evs ++ [SendEvent.updateLogFailed])

/-- Position of the first occurrence of an event in a trace (length of the
trace when absent). -/
def eventIdx (e : SendEvent) : List SendEvent → Nat
  | [] => 0
  | x :: xs => if x = e then 0 else eventIdx e xs + 1

/-- A `CampaignMessage` row. -/
structure CampaignMessage where
  id : String
  title : String
deriving DecidableEq, Repr

/-- One recipient item of `SendBulkMessageDto.data`. -/
structure BulkItem where
  toAddr : String
  message : String
  file : Option String
  mediaType : Option String
  fileName : Option String
deriving DecidableEq, Repr

/-- `SendBulkMessageDto`. -/
structure SendBulkMessageDto where
  sessionId : String
  title : String
  delay : String
  data : List BulkItem
deriving DecidableEq, Repr

/-- The synchronous payload returned by `sendBulkMessage`. -/
structure SendBulkResponse where
  message : String
  campaignId : String
  campaignTitle : String
  total : Nat
  status : String
deriving DecidableEq, Repr

/-- `sendBulkMessage(dto)`: fail fast when the session has no live handle,
else create one campaign row and return at once; the background loop
(`processBulkMessageBackground`) is launched detached and not awaited, so the
returned value and the message-log database at return time are independent of
any per-recipient send.  Returns the response (or thrown error), the list of
campaign rows created by the call, and the message-log database as it stands
when the call returns. -/
def sendBulkMessage (clients : List String) (dto : SendBulkMessageDto)
    (newCampaignId : String) (db : List MessageLog) :
    Except String SendBulkResponse × List CampaignMessage × List MessageLog :=
  if !(clients.contains dto.sessionId) then
    (.error "Sesi tidak ditemukan atau terputus.", [], db)
  else
    let campaign : CampaignMessage := { id := newCampaignId, title := dto.title }
    (.ok { message := "Proses pengiriman massal telah dimulai di latar belakang",
           campaignId := campaign.id,
           campaignTitle := campaign.title,
           total := dto.data.length,
           status := "PROCESSING" },
     [campaign], db)

/-- One reply rule of the auto-reply configuration. -/
structure ReplyRule where
  receive : String
  reply : String
deriving DecidableEq, Repr

/-- Case-insensitive lowering of a string, character by character. -/
def lowerStr (s : String) : String := String.mk (s.toList.map Char.toLower)

/-- JavaScript `hay.includes(sub)` (substring test) on character lists. -/
def listIncludes (sub : List Char) : List Char → Bool
  | [] => sub.isEmpty
  | c :: cs => sub.isPrefixOf (c :: cs) || listIncludes sub cs

/-- JavaScript `hay.includes(sub)` on strings. -/
def strIncludes (hay sub : String) : Bool := listIncludes sub.toList hay.toList

/-- Trigger check of `handleAutoReply`: some trigger word is a
case-insensitive substring of the inbound text. -/
def autoReplyTriggered (traceWords : List String) (lowerText : String) : Bool :=
  traceWords.any (fun w => strIncludes lowerText (lowerStr w))

/-- Reply selection of `handleAutoReply`: prefer the first rule whose
`receive` equals the lowered inbound text case-insensitively, else the first
rule whose lowered `receive` is a substring of it, else the empty reply. -/
def selectReplyMessage (replyRules : List ReplyRule) (lowerText : String) : String :=
  match replyRules.find? (fun r => lowerStr r.receive == lowerText) with
  | some r => r.reply
  | none =>
    match replyRules.find? (fun r => strIncludes lowerText (lowerStr r.receive)) with
    | some r => r.reply
    | none => ""

/-- The reply `handleAutoReply` decides to send for an inbound text body
(`none` when no reply action is taken): empty texts are ignored, untriggered
texts are ignored, and an empty selected reply message means no action. -/
def autoReplyDecision (traceWords : List String) (replyRules : List ReplyRule)
    (textBody : String) : Option String :=
  if textBody == "" then none
  else
    let lowerText := lowerStr textBody
    if !(autoReplyTriggered traceWords lowerText) then none
    else
      let replyMessage := selectReplyMessage replyRules lowerText
      if replyMessage == "" then none else some replyMessage

/-- The acknowledgment kinds of the protocol client
(`WAMessageStatus`; ERROR has numeric value 0 and is falsy). -/
inductive WAMsgStatus
  | ERROR
  | PENDING
  | SERVER_ACK
  | DELIVERY_ACK
  | READ
  | PLAYED
deriving DecidableEq, Repr

/-- The `switch (statusRaw)` of the `messages.update` handler. -/
def ackStatusString : WAMsgStatus → String
  | .SERVER_ACK => "SENT"
  | .DELIVERY_ACK => "DELIVERED"
  | .READ => "READ"
  | .PLAYED => "READ"
  | _ => "PENDING"

/-- Truthiness of `update.update.status` (absent, or the numeric-zero ERROR
kind, is falsy). -/
def waStatusTruthy : Option WAMsgStatus → Bool
  | none => false
  | some .ERROR => false
  | some _ => true

/-- One element of a `messages.update` event batch. -/
structure MessageUpdate where
  waMessageId : String
  fromMe : Bool
  status : Option WAMsgStatus
deriving DecidableEq, Repr

/-- The `messages.update` handler for a single update: when the update is
self-originated and carries a truthy status, every row matching the protocol
message id has its status overwritten by the mapped string. -/
def applyMessageUpdate (db : List MessageLog) (u : MessageUpdate) :
    List MessageLog :=
  match u.status with
  | some st =>
    if u.fromMe && waStatusTruthy (some st) then
      db.map (fun l =>
        if l.waMessageId == some u.waMessageId then { l with status := ackStatusString st } else l)
    else db
  | none => db

/-! ## Helper lemmas -/

theorem updateLog_append_fresh (db : List MessageLog) (x : MessageLog) (i : Nat)
    (f : MessageLog → MessageLog) (hfresh : ∀ l ∈ db, l.id ≠ i) (hx : x.id = i) :
    updateLog (db ++ [x]) i f = db ++ [f x] := by
  unfold updateLog
  rw [List.map_append]
  have h1 : List.map (fun l => if l.id == i then f l else l) db = db := by
    induction db with
    | nil => rfl
    | cons a as ih =>
      have ha : (a.id == i) = false := by
        simp only [beq_eq_false_iff_ne, ne_eq]
        exact hfresh a (List.mem_cons_self a as)
      simp only [List.map_cons, ha, if_neg, Bool.false_eq_true, not_false_iff,
        ite_false, List.cons.injEq, true_and]
      exact ih (fun l hl => hfresh l (List.mem_cons_of_mem a hl))
  rw [h1]
  simp [hx]

theorem tryPhase_events (env : SendEnv) (dto : SendMessageDto) (mf : Bool) :
    (tryPhase env dto mf).2 = [SendEvent.transmitCall] ∨ (tryPhase env dto mf).2 = [] := by
  unfold tryPhase mediaSwitchSend
  split
  · exact Or.inl rfl
  · split
    · exact Or.inr rfl
    · split
      · split <;> simp
      · split
        · split <;> simp
        · exact Or.inr rfl

/-! ## C9: status tracker -/

/-- C9: applying the same acknowledgment kind for one protocol message id
twice leaves every matching MessageLog row unchanged after the second
application, because the written status is a pure function of the kind:
SERVER_ACK maps to SENT, DELIVERY_ACK to DELIVERED, READ and PLAYED to READ,
and everything else to PENDING. -/
theorem c9_status_tracker_idempotent :
    (∀ (db : List MessageLog) (u : MessageUpdate),
      applyMessageUpdate (applyMessageUpdate db u) u = applyMessageUpdate db u)
    ∧ ackStatusString .SERVER_ACK = "SENT"
    ∧ ackStatusString .DELIVERY_ACK = "DELIVERED"
    ∧ ackStatusString .READ = "READ"
    ∧ ackStatusString .PLAYED = "READ"
    ∧ ackStatusString .PENDING = "PENDING"
    ∧ ackStatusString .ERROR = "PENDING" := by
  refine ⟨?_, rfl, rfl, rfl, rfl, rfl, rfl⟩
  intro db u
  match hu : u.status with
  | none => simp [applyMessageUpdate, hu]
  | some st =>
    by_cases hg : (u.fromMe && waStatusTruthy (some st)) = true
    · simp only [applyMessageUpdate, hu, hg, if_pos, List.map_map]
      apply List.map_congr_left
      intro l _
      by_cases hm : (l.waMessageId == some u.waMessageId) = true
      · simp [Function.comp, hm]
      · simp only [Bool.not_eq_true] at hm
        simp [Function.comp, hm]
    · simp only [Bool.not_eq_true] at hg
      simp [applyMessageUpdate, hu, hg]

/-! ## C6: delay-range parsing -/

/-- C6: `getRandomDelay` yields an integer in [3,7] for the range string
3-7, also for the reversed 7-3 (min and max auto-swapped), and yields 10
whenever the whole input is a single token (no dash) that does not parse. -/
theorem c6_delay_parsing :
    (∀ d : Nat, 3 ≤ getRandomDelay d "3-7" ∧ getRandomDelay d "3-7" ≤ 7)
    ∧ (∀ d : Nat, 3 ≤ getRandomDelay d "7-3" ∧ getRandomDelay d "7-3" ≤ 7)
    ∧ (∀ (s : String) (d : Nat), splitDash s.toList = [s.toList] →
        jsParseInt (jsTrim s.toList) = none → getRandomDelay d s = 10) := by
  refine ⟨?_, ?_, ?_⟩
  · intro d
    have h : getRandomDelay d "3-7" = 3 + ((d % 5 : Nat) : Int) := rfl
    have hm : d % 5 < 5 := Nat.mod_lt _ (by norm_num)
    rw [h]
    omega
  · intro d
    have h : getRandomDelay d "7-3" = 3 + ((d % 5 : Nat) : Int) := rfl
    have hm : d % 5 < 5 := Nat.mod_lt _ (by norm_num)
    rw [h]
    omega
  · intro s d h1 h2
    have h2x : jsParseInt (jsTrim s.data) = none := h2
    unfold getRandomDelay
    rw [h1]
    simp [h2x]

/-- Witness for C6 at concrete inputs. -/
theorem c6_delay_parsing_witness :
    (3 ≤ getRandomDelay 6 "3-7" ∧ getRandomDelay 6 "3-7" ≤ 7)
    ∧ (3 ≤ getRandomDelay 6 "7-3" ∧ getRandomDelay 6 "7-3" ≤ 7)
    ∧ getRandomDelay 6 "abc" = 10 :=
  ⟨c6_delay_parsing.1 6, c6_delay_parsing.2.1 6,
   c6_delay_parsing.2.2 "abc" 6 (by decide) (by decide)⟩

/-! ## C7: bulk entry point -/

/-- C7: `sendBulkMessage` with no live handle fails with the session error
before creating any Campaign row (and the message-log database is untouched);
with a live handle it creates exactly one Campaign row and returns at once a
payload carrying that campaign id, status PROCESSING and the number of
recipients, the message-log database still untouched at return time because
the background loop is not awaited. -/
theorem c7_send_bulk :
    (∀ (clients : List String) (dto : SendBulkMessageDto) (cid : String)
        (db : List MessageLog),
      clients.contains dto.sessionId = false →
      sendBulkMessage clients dto cid db =
        (.error "Sesi tidak ditemukan atau terputus.", [], db))
    ∧ (∀ (clients : List String) (dto : SendBulkMessageDto) (cid : String)
        (db : List MessageLog),
      clients.contains dto.sessionId = true →
      sendBulkMessage clients dto cid db =
        (.ok { message := "Proses pengiriman massal telah dimulai di latar belakang",
               campaignId := cid,
               campaignTitle := dto.title,
               total := dto.data.length,
               status := "PROCESSING" },
         [{ id := cid, title := dto.title }], db)) := by
  constructor
  · intro clients dto cid db h
    have hx : dto.sessionId ∉ clients := by simpa using h
    simp [sendBulkMessage, hx]
  · intro clients dto cid db h
    have hx : dto.sessionId ∈ clients := by simpa using h
    simp [sendBulkMessage, hx]

/-- Witness for C7 at concrete inputs. -/
theorem c7_send_bulk_witness :
    sendBulkMessage ["s9"] ⟨"s1", "Promo", "1-1", [⟨"628", "halo", none, none, none⟩]⟩ "c1" [] =
      (.error "Sesi tidak ditemukan atau terputus.", [], [])
    ∧ sendBulkMessage ["s1"] ⟨"s1", "Promo", "1-1", [⟨"628", "halo", none, none, none⟩]⟩ "c1" [] =
      (.ok { message := "Proses pengiriman massal telah dimulai di latar belakang",
             campaignId := "c1", campaignTitle := "Promo", total := 1,
             status := "PROCESSING" },
       [{ id := "c1", title := "Promo" }], []) :=
  ⟨c7_send_bulk.1 _ _ _ _ (by decide), c7_send_bulk.2 _ _ _ _ (by decide)⟩

/-! ## C8: auto-reply selection -/

/-- C8: when some rule matches the inbound text exactly
(case-insensitively), the first such rule is selected; otherwise the first
rule in configured order whose matchText is a case-insensitive substring of
the inbound text is selected; when neither exists no reply action is taken;
and with trigger words halo and hai the inbound text hello triggers no reply
action at all, whatever the rules, because no trigger word is a substring. -/
theorem c8_auto_reply_selection :
    (∀ (rules : List ReplyRule) (t : String) (r : ReplyRule),
      rules.find? (fun r => lowerStr r.receive == lowerStr t) = some r →
      selectReplyMessage rules (lowerStr t) = r.reply)
    ∧ (∀ (rules : List ReplyRule) (t : String) (r : ReplyRule),
      rules.find? (fun r => lowerStr r.receive == lowerStr t) = none →
      rules.find? (fun r => strIncludes (lowerStr t) (lowerStr r.receive)) = some r →
      selectReplyMessage rules (lowerStr t) = r.reply)
    ∧ (∀ (tw : List String) (rules : List ReplyRule) (t : String),
      rules.find? (fun r => lowerStr r.receive == lowerStr t) = none →
      rules.find? (fun r => strIncludes (lowerStr t) (lowerStr r.receive)) = none →
      autoReplyDecision tw rules t = none)
    ∧ (∀ rules : List ReplyRule,
      autoReplyDecision ["halo", "hai"] rules "hello" = none) := by
  refine ⟨?_, ?_, ?_, ?_⟩
  · intro rules t r h
    unfold selectReplyMessage
    rw [h]
  · intro rules t r h1 h2
    unfold selectReplyMessage
    rw [h1, h2]
  · intro tw rules t h1 h2
    unfold autoReplyDecision
    by_cases ht : (t == "") = true
    · simp [ht]
    · simp only [ht, Bool.false_eq_true, if_false]
      by_cases htr : autoReplyTriggered tw (lowerStr t) = true
      · simp [htr, selectReplyMessage, h1, h2]
      · simp only [Bool.not_eq_true] at htr
        simp [htr]
  · intro rules
    unfold autoReplyDecision
    have h1 : ("hello" == "") = false := by decide
    have h2 : autoReplyTriggered ["halo", "hai"] (lowerStr "hello") = false := by decide
    simp [h1, h2]

/-- Witness for C8 at concrete inputs. -/
theorem c8_auto_reply_selection_witness :
    selectReplyMessage [⟨"Halo", "Hai juga"⟩] (lowerStr "halo") = "Hai juga"
    ∧ selectReplyMessage [⟨"harga", "Ini harganya"⟩] (lowerStr "Berapa harga nya") = "Ini harganya"
    ∧ autoReplyDecision ["halo"] [⟨"xyz", "tidak"⟩] "halo dunia" = none :=
  ⟨c8_auto_reply_selection.1 _ "halo" ⟨"Halo", "Hai juga"⟩ (by decide),
   c8_auto_reply_selection.2.1 _ "Berapa harga nya" ⟨"harga", "Ini harganya"⟩
     (by decide) (by decide),
   c8_auto_reply_selection.2.2.1 _ _ "halo dunia" (by decide) (by decide)⟩

/-! ## C1: validation order versus log creation -/

/-- C1 (amended): the session check and the recipient-registration check run
before the MessageLog row is created, so a send rejected by the registration
check leaves the database untouched; but the media validation failures
(missing media type, unsupported media type, no media source) are thrown
inside the try block after the PENDING row is created, so such a rejected
send leaves exactly one new row, ending FAILED. -/
theorem c1_validation_order :
    (∀ (env : SendEnv) (dto : SendMessageDto) (mf : Bool) (cid : Option String)
        (db : List MessageLog) (nid : Nat),
      env.clients.contains dto.sessionId = true →
      strEndsWith (formatRecipient dto.toAddr) "@s.whatsapp.net" = true →
      env.registered.contains (formatRecipient dto.toAddr) = false →
      sendMessage env dto mf cid db nid =
        (.error ("Nomor " ++ dto.toAddr ++ " tidak terdaftar di WhatsApp."), db,
         [SendEvent.checkRegistration]))
    ∧ (∀ (env : SendEnv) (dto : SendMessageDto) (mf : Bool) (cid : Option String)
        (db : List MessageLog) (nid : Nat) (e : String),
      env.clients.contains dto.sessionId = true →
      (strEndsWith (formatRecipient dto.toAddr) "@s.whatsapp.net" = false ∨
        env.registered.contains (formatRecipient dto.toAddr) = true) →
      tryPhase env dto mf = (.error e, []) →
      (∀ l ∈ db, l.id ≠ nid) →
      (sendMessage env dto mf cid db nid).1 = .ok (.failed e) ∧
      (sendMessage env dto mf cid db nid).2.1 =
        db ++ [{ createdLog env dto mf cid nid with status := "FAILED" }]) := by
  constructor
  · intro env dto mf cid db nid h1 h2 h3
    have h1m : dto.sessionId ∈ env.clients := by simpa using h1
    have h3m : formatRecipient dto.toAddr ∉ env.registered := by simpa using h3
    simp [sendMessage, h1m, h2, h3m]
  · intro env dto mf cid db nid e h1 hreg htp hfresh
    have h1m : dto.sessionId ∈ env.clients := by simpa using h1
    have hupd := updateLog_append_fresh db
      (createdLog env dto mf cid nid) nid applyFailedUpdate hfresh rfl
    rcases hreg with hr | hr
    · constructor <;>
        simp [sendMessage, h1m, hr, htp, hupd, applyFailedUpdate]
    · have hrm : formatRecipient dto.toAddr ∈ env.registered := by simpa using hr
      constructor <;>
        simp [sendMessage, h1m, hrm, htp, hupd, applyFailedUpdate]

/-- Counterexample to C1 as stated: a send that passes the registration
check but fails media validation (unsupported media type) is rejected by
validation yet creates one MessageLog row (ending FAILED) instead of zero. -/
theorem c1_validation_order_cex :
    (sendMessage ⟨["s1"], ["628@s.whatsapp.net"], some 1, .ok (some "W")⟩
        ⟨"s1", "628", "halo", some "data:x", some "audio", none⟩
        false none [] 1).1 = .ok (.failed "Tipe media tidak didukung")
    ∧ (sendMessage ⟨["s1"], ["628@s.whatsapp.net"], some 1, .ok (some "W")⟩
        ⟨"s1", "628", "halo", some "data:x", some "audio", none⟩
        false none [] 1).2.1 =
      [{ id := 1, toAddr := "628@s.whatsapp.net",
         body := "halo [Attachment: audio]", status := "FAILED",
         waMessageId := none, campaignId := none, userId := some 1 }] := by
  decide

/-- Witness for C1 at concrete inputs. -/
theorem c1_validation_order_witness :
    sendMessage ⟨["s1"], [], some 1, .ok (some "W")⟩
      ⟨"s1", "628", "halo", none, none, none⟩ false none [] 1 =
      (.error ("Nomor " ++ "628" ++ " tidak terdaftar di WhatsApp."), [],
       [SendEvent.checkRegistration])
    ∧ (sendMessage ⟨["s1"], ["777@s.whatsapp.net"], some 1, .ok (some "W")⟩
        ⟨"s1", "777", "halo", some "http://x", some "audio", none⟩
        false none [] 1).1 = .ok (.failed "Tipe media tidak didukung") :=
  ⟨c1_validation_order.1 ⟨["s1"], [], some 1, .ok (some "W")⟩
     ⟨"s1", "628", "halo", none, none, none⟩ false none [] 1
     (by decide) (by decide) (by decide),
   (c1_validation_order.2 ⟨["s1"], ["777@s.whatsapp.net"], some 1, .ok (some "W")⟩
     ⟨"s1", "777", "halo", some "http://x", some "audio", none⟩ false none [] 1
     "Tipe media tidak didukung"
     (by decide) (Or.inr (by decide)) rfl (by decide)).1⟩

/-! ## C5: transmit failure isolation -/

/-- C5: when the transmit call itself throws after the PENDING row was
created, the row is updated to FAILED and `sendMessage` returns the
structured failure payload rather than propagating the exception (so a bulk
loop is never aborted by one item), and the attempt leaves exactly one new
MessageLog row, ending FAILED. -/
theorem c5_transmit_failure_isolated :
    ∀ (env : SendEnv) (dto : SendMessageDto) (mf : Bool) (cid : Option String)
      (db : List MessageLog) (nid : Nat) (err : String),
      env.clients.contains dto.sessionId = true →
      (strEndsWith (formatRecipient dto.toAddr) "@s.whatsapp.net" = false ∨
        env.registered.contains (formatRecipient dto.toAddr) = true) →
      tryPhase env dto mf = (env.transmit, [SendEvent.transmitCall]) →
      env.transmit = Except.error err →
      (∀ l ∈ db, l.id ≠ nid) →
      (sendMessage env dto mf cid db nid).1 = .ok (.failed err) ∧
      (sendMessage env dto mf cid db nid).2.1 =
        db ++ [{ createdLog env dto mf cid nid with status := "FAILED" }] := by
  intro env dto mf cid db nid err h1 hreg htp htr hfresh
  rw [htr] at htp
  have h1m : dto.sessionId ∈ env.clients := by simpa using h1
  have hupd := updateLog_append_fresh db
    (createdLog env dto mf cid nid) nid applyFailedUpdate hfresh rfl
  rcases hreg with hr | hr
  · constructor <;>
      simp [sendMessage, h1m, hr, htp, hupd, applyFailedUpdate]
  · have hrm : formatRecipient dto.toAddr ∈ env.registered := by simpa using hr
    constructor <;>
      simp [sendMessage, h1m, hrm, htp, hupd, applyFailedUpdate]

/-- Witness for C5 at concrete inputs. -/
theorem c5_transmit_failure_isolated_witness :
    (sendMessage ⟨["s1"], ["628@s.whatsapp.net"], some 1, .error "socket closed"⟩
        ⟨"s1", "628", "halo", none, none, none⟩ false none [] 1).1 =
      .ok (.failed "socket closed")
    ∧ (sendMessage ⟨["s1"], ["628@s.whatsapp.net"], some 1, .error "socket closed"⟩
        ⟨"s1", "628", "halo", none, none, none⟩ false none [] 1).2.1 =
      [] ++ [{ createdLog ⟨["s1"], ["628@s.whatsapp.net"], some 1, .error "socket closed"⟩
                ⟨"s1", "628", "halo", none, none, none⟩ false none 1 with
               status := "FAILED" }] :=
  c5_transmit_failure_isolated
    ⟨["s1"], ["628@s.whatsapp.net"], some 1, .error "socket closed"⟩
    ⟨"s1", "628", "halo", none, none, none⟩ false none [] 1 "socket closed"
    (by decide) (Or.inr (by decide)) rfl rfl (by decide)

/-! ## C10: success payload carries the stale creation-time row -/

/-- C10: on a successful transmit `sendMessage` returns the MessageLog
object captured at creation time, whose status is PENDING and whose protocol
message id is absent, although the stored row has already been updated to
SENT with the protocol-assigned id. -/
theorem c10_success_returns_stale_log :
    ∀ (env : SendEnv) (dto : SendMessageDto) (mf : Bool) (cid : Option String)
      (db : List MessageLog) (nid : Nat) (v : String),
      env.clients.contains dto.sessionId = true →
      (strEndsWith (formatRecipient dto.toAddr) "@s.whatsapp.net" = false ∨
        env.registered.contains (formatRecipient dto.toAddr) = true) →
      tryPhase env dto mf = (env.transmit, [SendEvent.transmitCall]) →
      env.transmit = Except.ok (some v) →
      (∀ l ∈ db, l.id ≠ nid) →
      (sendMessage env dto mf cid db nid).1 =
        .ok (.success (createdLog env dto mf cid nid)) ∧
      (createdLog env dto mf cid nid).status = "PENDING" ∧
      (createdLog env dto mf cid nid).waMessageId = none ∧
      (sendMessage env dto mf cid db nid).2.1 =
        db ++ [{ createdLog env dto mf cid nid with
                 status := "SENT", waMessageId := some v }] := by
  intro env dto mf cid db nid v h1 hreg htp htr hfresh
  rw [htr] at htp
  have h1m : dto.sessionId ∈ env.clients := by simpa using h1
  have hupd := updateLog_append_fresh db
    (createdLog env dto mf cid nid) nid (applySentUpdate (some v)) hfresh rfl
  rcases hreg with hr | hr
  · refine ⟨?_, rfl, rfl, ?_⟩ <;>
      simp [sendMessage, h1m, hr, htp, hupd, applySentUpdate]
  · have hrm : formatRecipient dto.toAddr ∈ env.registered := by simpa using hr
    refine ⟨?_, rfl, rfl, ?_⟩ <;>
      simp [sendMessage, h1m, hrm, htp, hupd, applySentUpdate]

/-- Witness for C10 at concrete inputs. -/
theorem c10_success_returns_stale_log_witness :
    (sendMessage ⟨["s1"], ["628@s.whatsapp.net"], some 1, .ok (some "WID9")⟩
        ⟨"s1", "628", "halo", none, none, none⟩ false none [] 1).1 =
      .ok (.success (createdLog ⟨["s1"], ["628@s.whatsapp.net"], some 1, .ok (some "WID9")⟩
        ⟨"s1", "628", "halo", none, none, none⟩ false none 1))
    ∧ (sendMessage ⟨["s1"], ["628@s.whatsapp.net"], some 1, .ok (some "WID9")⟩
        ⟨"s1", "628", "halo", none, none, none⟩ false none [] 1).2.1 =
      [] ++ [{ createdLog ⟨["s1"], ["628@s.whatsapp.net"], some 1, .ok (some "WID9")⟩
                ⟨"s1", "628", "halo", none, none, none⟩ false none 1 with
               status := "SENT", waMessageId := some "WID9" }] := by
  have h := c10_success_returns_stale_log
    ⟨["s1"], ["628@s.whatsapp.net"], some 1, .ok (some "WID9")⟩
    ⟨"s1", "628", "halo", none, none, none⟩ false none [] 1 "WID9"
    (by decide) (Or.inr (by decide)) rfl rfl (by decide)
  exact ⟨h.1, h.2.2.2⟩

/-! ## C3: position of the simulated typing delay -/

/-- C3 (amended): in every execution that creates the PENDING MessageLog row
the simulated typing delay, whose duration is the message length times 50ms
clamped to [1s, 4s], occurs strictly before the row creation (not after it),
and strictly before the transmit call whenever one happens. -/
theorem c3_typing_delay_position :
    ∀ (env : SendEnv) (dto : SendMessageDto) (mf : Bool) (cid : Option String)
      (db : List MessageLog) (nid : Nat),
      SendEvent.createLog ∈ (sendMessage env dto mf cid db nid).2.2 →
      SendEvent.sleepTyping (typingDurationMs dto.message) ∈
          (sendMessage env dto mf cid db nid).2.2
      ∧ eventIdx (SendEvent.sleepTyping (typingDurationMs dto.message))
            (sendMessage env dto mf cid db nid).2.2 <
          eventIdx SendEvent.createLog (sendMessage env dto mf cid db nid).2.2
      ∧ (SendEvent.transmitCall ∈ (sendMessage env dto mf cid db nid).2.2 →
          eventIdx (SendEvent.sleepTyping (typingDurationMs dto.message))
              (sendMessage env dto mf cid db nid).2.2 <
            eventIdx SendEvent.transmitCall (sendMessage env dto mf cid db nid).2.2)
      ∧ 1000 ≤ typingDurationMs dto.message ∧ typingDurationMs dto.message ≤ 4000 := by
  intro env dto mf cid db nid hmem
  have hbounds : 1000 ≤ typingDurationMs dto.message ∧ typingDurationMs dto.message ≤ 4000 := by
    unfold typingDurationMs
    omega
  by_cases h1 : dto.sessionId ∈ env.clients
  · by_cases hreg : strEndsWith (formatRecipient dto.toAddr) "@s.whatsapp.net" = true
        ∧ formatRecipient dto.toAddr ∉ env.registered
    · exfalso
      revert hmem
      simp [sendMessage, h1, hreg.1, hreg.2]
    · rcases htp : tryPhase env dto mf with ⟨res, evs⟩
      have hev := tryPhase_events env dto mf
      rw [htp] at hev
      simp only at hev
      by_cases hc : strEndsWith (formatRecipient dto.toAddr) "@s.whatsapp.net" = true
      · have hrm : formatRecipient dto.toAddr ∈ env.registered := by
          by_contra hx
          exact hreg ⟨hc, hx⟩
        rcases hev with hev | hev <;> cases res <;>
          simp [sendMessage, h1, hc, hrm, htp, hev, eventIdx] <;> exact hbounds
      · have hcf : strEndsWith (formatRecipient dto.toAddr) "@s.whatsapp.net" = false := by
          simpa using hc
        rcases hev with hev | hev <;> cases res <;>
          simp [sendMessage, h1, hcf, htp, hev, eventIdx] <;> exact hbounds
  · exfalso
    revert hmem
    simp [sendMessage, h1]

/-- Counterexample to C3 as stated: in a concrete successful send the
typing-delay event precedes the PENDING-log creation event, so the delay
does not occur strictly after the row creation. -/
theorem c3_typing_delay_cex :
    ¬ (eventIdx SendEvent.createLog
         (sendMessage ⟨["s1"], ["628@s.whatsapp.net"], some 1, .ok (some "W")⟩
           ⟨"s1", "628", "halo", none, none, none⟩ false none [] 1).2.2 <
       eventIdx (SendEvent.sleepTyping (typingDurationMs "halo"))
         (sendMessage ⟨["s1"], ["628@s.whatsapp.net"], some 1, .ok (some "W")⟩
           ⟨"s1", "628", "halo", none, none, none⟩ false none [] 1).2.2) := by
  decide

/-- Witness for C3 at concrete inputs. -/
theorem c3_typing_delay_position_witness :
    SendEvent.sleepTyping (typingDurationMs "halo") ∈
      (sendMessage ⟨["s1"], ["628@s.whatsapp.net"], some 1, .ok (some "W")⟩
        ⟨"s1", "628", "halo", none, none, none⟩ false none [] 1).2.2
    ∧ eventIdx (SendEvent.sleepTyping (typingDurationMs "halo"))
        (sendMessage ⟨["s1"], ["628@s.whatsapp.net"], some 1, .ok (some "W")⟩
          ⟨"s1", "628", "halo", none, none, none⟩ false none [] 1).2.2 <
      eventIdx SendEvent.createLog
        (sendMessage ⟨["s1"], ["628@s.whatsapp.net"], some 1, .ok (some "W")⟩
          ⟨"s1", "628", "halo", none, none, none⟩ false none [] 1).2.2 := by
  have h := c3_typing_delay_position
    ⟨["s1"], ["628@s.whatsapp.net"], some 1, .ok (some "W")⟩
    ⟨"s1", "628", "halo", none, none, none⟩ false none [] 1 (by decide)
  exact ⟨h.1, h.2.1⟩

/-! ## Pipeline lemmas for C2 -/

theorem getD_mem_of_lt {α : Type} (l : List α) (i : Nat) (d : α)
    (h : i < l.length) : l.getD i d ∈ l := by
  rw [List.getD_eq_getElem l d h]
  exact List.getElem_mem h

theorem addInvisibleUnique_fst_ne_nil (s : List Nat) (t : List Char) :
    (addInvisibleUnique s t).1 ≠ [] := by
  simp only [addInvisibleUnique, draw]
  intro h
  have hl := congrArg List.length h
  simp only [List.length_append, List.length_replicate, List.length_nil] at hl
  omega

theorem replaceWordGo_fst_ne_nil (w0 : Char) (wr : List Char)
    (vars : List (List Char)) (hv : vars ≠ []) (hve : ∀ v ∈ vars, v ≠ [])
    (fuel : Nat) (s : List Nat) (prevW : Bool) (t : List Char) (ht : t ≠ []) :
    (replaceWordGo w0 wr vars fuel s prevW t).1 ≠ [] := by
  match fuel, t with
  | _, [] => exact absurd rfl ht
  | 0, c :: cs => simp [replaceWordGo]
  | fuel + 1, c :: cs =>
    have hlt : s.tail.headD 0 % vars.length < vars.length :=
      Nat.mod_lt _ (List.length_pos.mpr hv)
    have hX : vars.getD (s.tail.headD 0 % vars.length) [] ≠ [] :=
      hve _ (getD_mem_of_lt vars _ [] hlt)
    simp only [replaceWordGo, draw]
    split
    · split
      · simp
      · intro hnil
        simp only [List.take_succ_cons] at hnil
        have hnil' := List.append_eq_nil.mp hnil
        revert hnil'
        intro hnil'
        rcases hnil' with ⟨h1, _⟩
        revert h1
        split
        · intro h1
          cases hx : vars.getD (s.tail.headD 0 % vars.length) [] with
          | nil => exact hX hx
          | cons a as =>
            rw [hx] at h1
            simp [slangCapitalize] at h1
        · intro h1
          exact hX h1
    · simp

theorem applySlangEntries_fst_ne_nil :
    ∀ (entries : List ((Char × List Char) × List String)) (s : List Nat)
      (t : List Char),
      (∀ e ∈ entries, e.2 ≠ [] ∧ ∀ v ∈ e.2, v ≠ "") → t ≠ [] →
      (applySlangEntries entries s t).1 ≠ []
  | [], _, t, _, ht => by simpa [applySlangEntries] using ht
  | ((w0, wr), vars) :: es, s, t, hh, ht => by
    have h1 := (hh _ (List.mem_cons_self _ _)).1
    have h2 := (hh _ (List.mem_cons_self _ _)).2
    have hv : vars.map String.toList ≠ [] := by
      simpa using h1
    have hve : ∀ v ∈ vars.map String.toList, v ≠ [] := by
      intro v hvmem
      rcases List.mem_map.mp hvmem with ⟨w, hw, rfl⟩
      intro hnil
      apply h2 w hw
      cases w with
      | mk data =>
        simp only [String.toList] at hnil
        simp [hnil]
    have hr := replaceWordGo_fst_ne_nil w0 wr (vars.map String.toList)
      hv hve t.length s false t ht
    simpa [applySlangEntries] using
      applySlangEntries_fst_ne_nil es
        (replaceWordGo w0 wr (vars.map String.toList) t.length s false t).2
        (replaceWordGo w0 wr (vars.map String.toList) t.length s false t).1
        (fun e he => hh e (List.mem_cons_of_mem _ he)) hr

/-! ## C2: pipeline output length -/

/-- C2 (amended): the pipeline output can be shorter than the input (a
spintax block collapses to one of its choices), but it is always nonempty:
the uniqueness stage appends at least one character and the slang stage
never erases the text. -/
theorem c2_pipeline_output_nonempty :
    ∀ (hour : Nat) (s : List Nat) (rawText : List Char),
      1 ≤ (bulkTextProcessor hour s rawText).1.length := by
  intro hour s raw
  have h3 := addInvisibleUnique_fst_ne_nil
    (processSpintax (getTimeBasedGreeting hour s raw).2
      (getTimeBasedGreeting hour s raw).1).2
    (processSpintax (getTimeBasedGreeting hour s raw).2
      (getTimeBasedGreeting hour s raw).1).1
  have hfin := applySlangEntries_fst_ne_nil slangDict
    (addInvisibleUnique
      (processSpintax (getTimeBasedGreeting hour s raw).2
        (getTimeBasedGreeting hour s raw).1).2
      (processSpintax (getTimeBasedGreeting hour s raw).2
        (getTimeBasedGreeting hour s raw).1).1).2
    (addInvisibleUnique
      (processSpintax (getTimeBasedGreeting hour s raw).2
        (getTimeBasedGreeting hour s raw).1).2
      (processSpintax (getTimeBasedGreeting hour s raw).2
        (getTimeBasedGreeting hour s raw).1).1).1
    (by decide) h3
  have hne : (bulkTextProcessor hour s raw).1 ≠ [] := by
    simpa [bulkTextProcessor, applyIndonesianSlang] using hfin
  exact Nat.one_le_iff_ne_zero.mpr (fun h0 => hne (List.length_eq_zero.mp h0))

/-- Counterexample to C2 as stated: on the spintax template of two
one-character choices, with a concrete random stream, the pipeline output
(one chosen character plus one zero-width space) is strictly shorter than
the five-character input. -/
theorem c2_pipeline_length_cex :
    (bulkTextProcessor 12 [0, 0, 0] "\x7ba|b\x7d".toList).1.length <
      ("\x7ba|b\x7d".toList).length := by
  decide

/-! ## C4: stage order of the pipeline -/

/-- C4 (amended): the pipeline applies greeting substitution, then spintax
expansion, then the uniqueness suffix, and the slang substitution last — the
uniqueness suffix is the third stage, not the final one. -/
theorem c4_stage_order :
    ∀ (hour : Nat) (s : List Nat) (rawText : List Char),
      ∃ g sp suf : List Char × List Nat,
        g = getTimeBasedGreeting hour s rawText ∧
        sp = processSpintax g.2 g.1 ∧
        suf = addInvisibleUnique sp.2 sp.1 ∧
        bulkTextProcessor hour s rawText = applyIndonesianSlang suf.2 suf.1 :=
  fun _ _ _ => ⟨_, _, _, rfl, rfl, rfl, rfl⟩

/-- Counterexample to C4 as stated: with the sequential random stream
0,1,2,3 on the input word saya, the pipeline of the source (suffix before
slang) and the spec-ordered composition (slang before suffix, suffix last)
produce different outputs. -/
theorem c4_stage_order_cex :
    (bulkTextProcessor 12 [0, 1, 2, 3] "saya".toList).1 ≠
      (specOrderProcessor 12 [0, 1, 2, 3] "saya".toList).1 := by
  decide
